import Mathlib

set_option maxRecDepth 100000

attribute [local semireducible] Rat.add Rat.sub Rat.mul Rat.inv Rat.ofScientific

/-!
Verification development for the NYC Citi Bike demand-analysis dashboard.

The repository's computational core is a three-stage pipeline: a file-probing
loader, a tabular aggregator, and a synthetic data generator used as fallback.
This file gives a shallow embedding of that core:

* pure Python functions become Lean functions;
* the NumPy global random state is made explicit: every `np.random.normal`
  call reads successive values from a stream `noise : Nat → ℚ` starting at a
  position `pos : Nat` that models the hidden global RNG cursor, and the new
  cursor position is returned;
* the transcendental seasonal term `np.sin(2π·dayofyear/365)·20000` of
  `create_sample_data` is abstracted as a parameter `seasonal : Nat → ℚ`
  applied to the day-of-year (its exact value never matters to the claims);
* real arithmetic (NumPy float64) is idealised as exact rational arithmetic;
  `astype(int)` is truncation toward zero;
* file-system access is an explicit map `FS` from paths to file states, where
  a present file is represented by the outcome of the two parses the code can
  attempt on it (as a station table, or as a daily table with `to_datetime`);
  a parse failure models `pd.read_csv`/`pd.to_datetime` raising.
-/

/-! ## Calendar helpers

2021 and 2022 are both non-leap years, so a single day-of-year to month
conversion serves every date the generators produce. -/

/-- Month (1-12) of a day-of-year (1-365) in a non-leap year. -/
def monthOfDoy (d : Nat) : Nat :=
  if d ≤ 31 then 1 else if d ≤ 59 then 2 else if d ≤ 90 then 3
  else if d ≤ 120 then 4 else if d ≤ 151 then 5 else if d ≤ 181 then 6
  else if d ≤ 212 then 7 else if d ≤ 243 then 8 else if d ≤ 273 then 9
  else if d ≤ 304 then 10 else if d ≤ 334 then 11 else 12

/-- The `monthly_temps` dictionary `{1: 32, ..., 12: 38}` shared by
`create_sample_data` and `load_weather_data`. -/
def monthlyTemps : Nat → ℤ
  | 1 => 32 | 2 => 35 | 3 => 42 | 4 => 53 | 5 => 63 | 6 => 72
  | 7 => 77 | 8 => 76 | 9 => 68 | 10 => 57 | 11 => 48 | 12 => 38
  | _ => 0

/-- Truncation toward zero of a rational, the semantics of NumPy
`astype(int)` on a float value. -/
def truncQ (q : ℚ) : ℤ := Int.tdiv q.num (q.den : ℤ)

/-- Binary maximum on rationals (`np.maximum` / Python `max`), written as an
explicit comparison so it evaluates by kernel reduction. -/
def maxQ (a b : ℚ) : ℚ := if a ≤ b then b else a

/-! ## The fixed sample station table

The 20 station names and trip counts hard-coded (identically) in
`create_sample_data` (pages and notebooks dashboards), `load_station_data`
(3_Popular_Stations.py) and both part-2 variants. -/

/-- The `stations` literal list. -/
def sampleStationNames : List String :=
  ["W 21 St & 6 Ave", "West St & Chambers St", "Broadway & W 58 St",
   "6 Ave & W 33 St", "1 Ave & E 68 St", "Broadway & E 14 St",
   "Broadway & W 25 St", "University Pl & E 14 St", "Broadway & E 21 St",
   "W 31 St & 7 Ave", "E 33 St & 1 Ave", "Cleveland Pl & Spring St",
   "12 Ave & W 40 St", "6 Ave & W 34 St", "West St & Liberty St",
   "11 Ave & W 41 St", "Lafayette St & E 8 St", "Central Park S & 6 Ave",
   "E 40 St & Park Ave", "8 Ave & W 33 St"]

/-- The `trip_counts` literal list. -/
def sampleTripCounts : List ℤ :=
  [129018, 128456, 127890, 126543, 125678, 124321, 123456, 122890, 121234,
   120567, 119876, 119123, 118456, 117890, 117123, 116456, 115789, 115123,
   114456, 113789]

/-- The `top_stations` DataFrame built from the two literal lists. -/
def sampleTopStations : List (String × ℤ) :=
  sampleStationNames.zip sampleTripCounts

/-- `load_station_data` of `pages/3_Popular_Stations.py`: returns the fixed
station table and nothing else. -/
def load_station_data : List (String × ℤ) := sampleTopStations

/-! ## `create_sample_data` (pages/nyc_bike_dashboard.py lines 92-131,
identical in notebooks/nyc_bike_dashboard.py lines 82-122) -/

/-- One row of the generated daily DataFrame: a calendar date (year,
day-of-year), the integer `daily_trips`, and the float `temperature`. -/
structure DailyRow where
  year : Nat
  doy : Nat
  daily_trips : ℤ
  temperature : ℚ
deriving DecidableEq

/-- `pd.date_range('2021-01-30', '2022-12-31', freq='D')`: 336 days of 2021
(day-of-year 30 to 365) followed by the 365 days of 2022. -/
def sampleDates : List (Nat × Nat) :=
  ((List.range 336).map fun i => (2021, 30 + i)) ++
    ((List.range 365).map fun i => (2022, 1 + i))

/-- `create_sample_data`: the fixed station table plus a 701-day daily series.

`daily_trips = (80000 + sin-seasonality + normal(0,5000,701)).astype(int)`
with no lower bound; `temperature = monthly_temps[month] + normal(0,5,701)`.
The trips noise vector is drawn first (positions `pos..pos+700`), the
temperature noise second (positions `pos+701..pos+1401`). Returns the new
RNG cursor as final component. -/
def create_sample_data (seasonal noise : Nat → ℚ) (pos : Nat) :
    List (String × ℤ) × List DailyRow × Nat :=
  let n := sampleDates.length
  let daily := (List.range n).map fun i =>
    let d := sampleDates.getD i (0, 0)
    { year := d.1
      doy := d.2
      daily_trips := truncQ ((80000 : ℚ) + seasonal d.2 + noise (pos + i))
      temperature := (monthlyTemps (monthOfDoy d.2) : ℚ) + noise (pos + n + i) }
  (sampleTopStations, daily, pos + 2 * n)

/-! ## `load_weather_data` (pages/2_Weather_Impact.py lines 13-33) -/

/-- One row of the weather page's generated series (all dates in 2022, so a
day-of-year suffices). -/
structure WeatherRow where
  doy : Nat
  daily_trips : ℤ
  temperature : ℚ
deriving DecidableEq

/-- `load_weather_data`: for each of the 365 days of 2022,
`temperature = monthly_temps[month] + normal(0,5,365)` (noise positions
`pos..pos+364`), then
`daily_trips = max(40000 + (temperature-32)*800 + normal(0,3000,365), 15000)`
cast to int (trips noise positions `pos+365..pos+729`). -/
def load_weather_data (noise : Nat → ℚ) (pos : Nat) :
    List WeatherRow × Nat :=
  let rows := (List.range 365).map fun i =>
    let temp := (monthlyTemps (monthOfDoy (i + 1)) : ℚ) + noise (pos + i)
    let baseTrips := (40000 : ℚ) + (temp - 32) * 800
    { doy := i + 1
      daily_trips := truncQ (maxQ (baseTrips + noise (pos + 365 + i)) 15000)
      temperature := temp }
  (rows, pos + 730)

/-! ## Season parameters of the part-2 dashboard variants -/

/-- Season label of a month, as the `if month in [12,1,2] ...` chain. -/
def seasonName (m : Nat) : String :=
  if m = 12 ∨ m ≤ 2 then "Winter"
  else if m ≤ 5 then "Spring"
  else if m ≤ 8 then "Summer"
  else "Fall"

/-- Per-season `base_temp` (35 / 55 / 75 / 60). -/
def seasonTemp (m : Nat) : ℤ :=
  if m = 12 ∨ m ≤ 2 then 35
  else if m ≤ 5 then 55
  else if m ≤ 8 then 75
  else 60

/-- Per-season `base_trips` (45000 / 75000 / 95000 / 80000). -/
def seasonTrips (m : Nat) : ℤ :=
  if m = 12 ∨ m ≤ 2 then 45000
  else if m ≤ 5 then 75000
  else if m ≤ 8 then 95000
  else 80000

/-- Month of the i-th day (0-based) of the range 2021-01-01 to 2022-12-31
(731 days, both years non-leap). -/
def monthOfIdx731 (i : Nat) : Nat :=
  if i < 365 then monthOfDoy (i + 1) else monthOfDoy (i - 364)

/-! ## File-system model and the loaders (defined before the part-2 pages
loader so the latter can share the `FS` type). -/

deriving instance DecidableEq for Except

/-- Observable behaviour of a present file under the two parses the loaders
perform: reading it as a pre-aggregated station table, or as a daily table
(including the `pd.to_datetime` conversion). `Except.error` models the parse
raising on malformed content (bad timestamp, missing column). -/
structure FileData where
  asStations : Except Unit (List (String × ℤ))
  asDaily : Except Unit (List DailyRow)
deriving DecidableEq

/-- A path either does not exist or holds a file. -/
inductive FileNode where
  | absent
  | file (d : FileData)
deriving DecidableEq

/-- A file-system state: what `os.path.exists` and the parsers see. -/
def FS := String → FileNode

/-- The `for path in paths: if os.path.exists(path): load; break` loop.
The first existing path is loaded; a parse error propagates (the Python code
wraps no try/except around `pd.read_csv`), so later candidates are not
probed after the first existing one. `.ok none` means no candidate existed. -/
def loadFirst {α : Type} (fs : FS) (paths : List String)
    (parse : FileData → Except Unit α) : Except Unit (Option α) :=
  match paths with
  | [] => .ok none
  | p :: rest =>
    match fs p with
    | .absent => loadFirst fs rest parse
    | .file d => (parse d).map some

/-- Common body of `load_dashboard_data` (pages lines 43-90 and notebooks
lines 43-80 differ only in their candidate path lists): probe the station
candidates, then the daily candidates; if either table is still missing,
warn and return `create_sample_data()` for both. The `Bool` component is
the "Using sample data" warning. -/
def load_dashboard_core (sp dp : List String) (fs : FS)
    (seasonal noise : Nat → ℚ) (pos : Nat) :
    Except Unit (Bool × List (String × ℤ) × List DailyRow) := do
  let ts ← loadFirst fs sp (fun d => d.asStations)
  let dd ← loadFirst fs dp (fun d => d.asDaily)
  match ts, dd with
  | some t, some d => .ok (false, t, d)
  | _, _ =>
    let s := create_sample_data seasonal noise pos
    .ok (true, s.1, s.2.1)

/-- `os.path.join(base_dir, p)`. -/
def joinPath (base p : String) : String := base ++ "/" ++ p

/-- The six station candidates of pages/nyc_bike_dashboard.py. -/
def pagesStationPaths (base : String) : List String :=
  [joinPath base "top_20_stations_full.csv",
   joinPath base "top_20_stations.csv",
   joinPath base "../data/processed/top_20_stations_full.csv",
   joinPath base "../data/processed/top_20_stations.csv",
   joinPath base "data/processed/top_20_stations_full.csv",
   joinPath base "data/processed/top_20_stations.csv"]

/-- The six daily candidates of pages/nyc_bike_dashboard.py. -/
def pagesDailyPaths (base : String) : List String :=
  [joinPath base "daily_aggregated_data_full.csv",
   joinPath base "daily_aggregated_data.csv",
   joinPath base "../data/processed/daily_aggregated_data_full.csv",
   joinPath base "../data/processed/daily_aggregated_data.csv",
   joinPath base "data/processed/daily_aggregated_data_full.csv",
   joinPath base "data/processed/daily_aggregated_data.csv"]

/-- `load_dashboard_data` of pages/nyc_bike_dashboard.py. -/
def load_dashboard_data (base : String) (fs : FS)
    (seasonal noise : Nat → ℚ) (pos : Nat) :
    Except Unit (Bool × List (String × ℤ) × List DailyRow) :=
  load_dashboard_core (pagesStationPaths base) (pagesDailyPaths base)
    fs seasonal noise pos

/-- The three station candidates of notebooks/nyc_bike_dashboard.py. -/
def nbStationPaths : List String :=
  ["top_20_stations_full.csv", "top_20_stations.csv",
   "../data/processed/top_20_stations.csv"]

/-- The three daily candidates of notebooks/nyc_bike_dashboard.py. -/
def nbDailyPaths : List String :=
  ["daily_aggregated_data_full.csv", "daily_aggregated_data.csv",
   "../data/processed/daily_aggregated_data.csv"]

/-- `load_dashboard_data` of notebooks/nyc_bike_dashboard.py. -/
def load_dashboard_data_nb (fs : FS) (seasonal noise : Nat → ℚ) (pos : Nat) :
    Except Unit (Bool × List (String × ℤ) × List DailyRow) :=
  load_dashboard_core nbStationPaths nbDailyPaths fs seasonal noise pos

/-! ## `load_dashboard_data` of pages/nyc_bike_dashboard_part_2.py
(lines 80-141) -/

/-- One row of the part-2 pages daily DataFrame: date (as day index from
2021-01-01), integer trips, integer temperature, season label. -/
structure P2Row where
  dayIdx : Nat
  daily_trips : ℤ
  temperature : ℤ
  season : String
deriving DecidableEq

/-- The part-2 pages loader. Its Python body references neither the file
system nor the random module: both parameters are unused, mirroring that the
function builds the fixed station table and a per-season constant daily
series from literals only. -/
def load_dashboard_data_part2 (fs : FS) (noise : Nat → ℚ) :
    List (String × ℤ) × List P2Row :=
  let daily := (List.range 731).map fun i =>
    let m := monthOfIdx731 i
    { dayIdx := i
      daily_trips := seasonTrips m
      temperature := seasonTemp m
      season := seasonName m }
  (sampleTopStations, daily)

/-! ## `load_sample_data` of notebooks/nyc_bike_dashboard_part_2.py
(lines 77-145) -/

/-- One row of the notebooks part-2 daily DataFrame; `daily_trips` stays a
float there (no `astype(int)`). -/
structure NB2Row where
  dayIdx : Nat
  daily_trips : ℚ
  temperature : ℚ
  season : String
deriving DecidableEq

/-- `load_sample_data`: per day, `base_temp = season base + normal(0,σ_t)`
then `base_trips = season base + normal(0,σ_r)` (two draws per day, in that
order, so day `i` reads noise positions `pos+2i` and `pos+2i+1`); a 1.2×
weekend multiplier (2021-01-01 was a Friday, so day `i` is a weekend day iff
`(4+i) % 7 ≥ 5`); then `daily_trips = max(20000, base_trips)` and
`temperature = max(10, base_temp)`. -/
def load_sample_data (noise : Nat → ℚ) (pos : Nat) :
    List (String × ℤ) × List NB2Row × Nat :=
  let daily := (List.range 731).map fun i =>
    let m := monthOfIdx731 i
    let temp0 := (seasonTemp m : ℚ) + noise (pos + 2 * i)
    let trips0 := (seasonTrips m : ℚ) + noise (pos + 2 * i + 1)
    let trips1 := if (4 + i) % 7 ≥ 5 then trips0 * (6 / 5 : ℚ) else trips0
    { dayIdx := i
      daily_trips := maxQ 20000 trips1
      temperature := maxQ 10 temp0
      season := seasonName m }
  (sampleTopStations, daily, pos + 2 * 731)

/-! ## Helper lemmas -/

theorem getD_range_map {α : Type} (f : Nat → α) (n i : Nat) (d : α)
    (h : i < n) : ((List.range n).map f).getD i d = f i := by
  rw [List.getD_eq_getElem?_getD, List.getElem?_map, List.getElem?_range h]
  rfl

theorem truncQ_eq_floor {q : ℚ} (h : 0 ≤ q) : truncQ q = ⌊q⌋ := by
  rw [truncQ, Rat.floor_def, Int.tdiv_eq_ediv (Rat.num_nonneg.mpr h) (by positivity)]

theorem le_truncQ {z : ℤ} {q : ℚ} (hz : 0 ≤ z) (h : (z : ℚ) ≤ q) :
    z ≤ truncQ q := by
  rw [truncQ_eq_floor (le_trans (by exact_mod_cast hz) h)]
  exact Int.le_floor.mpr h

theorem left_le_maxQ (a b : ℚ) : a ≤ maxQ a b := by
  unfold maxQ
  split
  · assumption
  · exact le_refl a

theorem right_le_maxQ (a b : ℚ) : b ≤ maxQ a b := by
  unfold maxQ
  split
  · exact le_refl b
  · exact le_of_lt (lt_of_not_le (by assumption))

theorem sampleDates_length : sampleDates.length = 701 := by decide

theorem season_mem (m : Nat) :
    (seasonName m, seasonTrips m, seasonTemp m) ∈
      ([("Winter", 45000, 35), ("Spring", 75000, 55),
        ("Summer", 95000, 75), ("Fall", 80000, 60)] : List (String × ℤ × ℤ)) := by
  unfold seasonName seasonTrips seasonTemp
  split_ifs <;> simp

/-! ## C7 -/

/-- C7: the station generator returns exactly 20 (station_name, trip_count)
pairs, with strictly (hence monotonically) decreasing trip counts from first
to last, and names exactly the fixed illustrative list; the constant
`load_station_data` of 3_Popular_Stations.py returns the same table. -/
theorem station_generator_monotone (seasonal noise : Nat → ℚ) (pos : Nat) :
    (create_sample_data seasonal noise pos).1.length = 20
    ∧ List.Pairwise (fun a b : String × ℤ => b.2 < a.2)
        (create_sample_data seasonal noise pos).1
    ∧ (create_sample_data seasonal noise pos).1.map Prod.fst = sampleStationNames
    ∧ load_station_data = (create_sample_data seasonal noise pos).1 := by
  have h : (create_sample_data seasonal noise pos).1 = sampleTopStations := rfl
  rw [h]
  exact ⟨by decide, by decide, by decide, by decide⟩

/-! ## C10 -/

/-- C10: the part-2 pages loader is a constant function: its output does not
depend on the file system nor on the random stream (it reads no files and
draws no random numbers), its station table is the fixed 20-entry list, and
every daily row carries the fixed per-season (trips, temperature) constants
(45000, 35) / (75000, 55) / (95000, 75) / (80000, 60). -/
theorem part2_loader_constant (fs fs' : FS) (noise noise' : Nat → ℚ) :
    load_dashboard_data_part2 fs noise = load_dashboard_data_part2 fs' noise'
    ∧ (load_dashboard_data_part2 fs noise).1 = sampleTopStations
    ∧ ∀ r ∈ (load_dashboard_data_part2 fs noise).2,
        (r.season, r.daily_trips, r.temperature) ∈
          ([("Winter", 45000, 35), ("Spring", 75000, 55),
            ("Summer", 95000, 75), ("Fall", 80000, 60)] : List (String × ℤ × ℤ)) := by
  refine ⟨rfl, rfl, ?_⟩
  intro r hr
  simp only [load_dashboard_data_part2, List.mem_map, List.mem_range] at hr
  obtain ⟨i, -, rfl⟩ := hr
  exact season_mem (monthOfIdx731 i)

/-- C10 witness: the first generated row is the Winter row (0, 45000, 35),
and the theorem's per-season characterisation applies to it. -/
theorem part2_loader_constant_witness :
    ((⟨0, 45000, 35, "Winter"⟩ : P2Row).season,
      (⟨0, 45000, 35, "Winter"⟩ : P2Row).daily_trips,
      (⟨0, 45000, 35, "Winter"⟩ : P2Row).temperature) ∈
      ([("Winter", 45000, 35), ("Spring", 75000, 55),
        ("Summer", 95000, 75), ("Fall", 80000, 60)] : List (String × ℤ × ℤ)) :=
  (part2_loader_constant (fun _ => .absent) (fun _ => .absent)
      (fun _ => 0) (fun _ => 0)).2.2 _ (by decide)

/-! ## C1 -/

/-- C1 counterexample: the generators never seed the RNG, so an invocation
reads whatever the global NumPy cursor holds. With the same underlying noise
stream, a first invocation (cursor 0) and a second sequential invocation
(cursor 730, since the first consumed 730 draws) of `load_weather_data`
return different daily series, refuting bit-identical re-invocation. -/
theorem weather_generator_invocations_differ :
    (load_weather_data (fun n => (n : ℚ)) 0).1
      ≠ (load_weather_data (fun n => (n : ℚ)) 730).1 := by
  decide

/-- C1 amended: the generated series is a deterministic function of the
(unseeded) global RNG state alone: two invocations agree as soon as the 730
draws `load_weather_data` consumes (resp. the 1402 draws
`create_sample_data` consumes) agree; nothing else about the stream or the
cursor position influences the output. -/
theorem generator_determined_by_rng_window (s t : Nat → ℚ) (p q : Nat)
    (seasonal : Nat → ℚ) :
    ((∀ i, i < 730 → s (p + i) = t (q + i)) →
      (load_weather_data s p).1 = (load_weather_data t q).1)
    ∧ ((∀ i, i < 1402 → s (p + i) = t (q + i)) →
      (create_sample_data seasonal s p).2.1
        = (create_sample_data seasonal t q).2.1) := by
  constructor
  · intro h
    dsimp only [load_weather_data]
    refine List.map_congr_left ?_
    intro i hi
    rw [List.mem_range] at hi
    have h1 := h i (by omega)
    have h2 := h (365 + i) (by omega)
    have e1 : p + 365 + i = p + (365 + i) := by omega
    have e2 : q + 365 + i = q + (365 + i) := by omega
    simp only [e1, e2, h1, h2]
  · intro h
    dsimp only [create_sample_data]
    refine List.map_congr_left ?_
    intro i hi
    rw [List.mem_range, sampleDates_length] at hi
    have h1 := h i (by omega)
    have h2 := h (sampleDates.length + i) (by rw [sampleDates_length]; omega)
    have e1 : p + sampleDates.length + i = p + (sampleDates.length + i) := by omega
    have e2 : q + sampleDates.length + i = q + (sampleDates.length + i) := by omega
    simp only [e1, e2, h1, h2]

/-- C1 witness: the amended dependency theorem applied to a concrete stream
and cursor, its agreement hypothesis discharged pointwise. -/
theorem generator_determined_by_rng_window_witness :
    (load_weather_data (fun n => (n : ℚ)) 3).1
      = (load_weather_data (fun n => (n : ℚ)) 3).1 :=
  (generator_determined_by_rng_window (fun n => (n : ℚ)) (fun n => (n : ℚ))
      3 3 (fun _ => 0)).1 (fun _ _ => rfl)

/-! ## C6 -/

/-- C6 counterexample: `create_sample_data` applies no lower bound to
`daily_trips`. With the seasonal term at 0 (within the range of the sine
term) and a noise draw of -200000 (in the support of `normal(0, 5000)`),
the generated series contains a negative `daily_trips` value. -/
theorem create_sample_data_negative_trips :
    ∃ r ∈ (create_sample_data (fun _ => 0) (fun _ => -200000) 0).2.1,
      r.daily_trips < 0 := by
  decide

/-- C6 amended: the floor holds for the two generators that apply one:
`load_weather_data` floors `daily_trips` at 15000 and `load_sample_data`
(notebooks part-2) floors at 20000, so those series are never negative;
`create_sample_data` applies no floor (see the counterexample). -/
theorem generator_trip_floors (noise : Nat → ℚ) (pos : Nat) :
    (∀ r ∈ (load_weather_data noise pos).1, 15000 ≤ r.daily_trips)
    ∧ (∀ r ∈ (load_sample_data noise pos).2.1, 20000 ≤ r.daily_trips) := by
  constructor
  · intro r hr
    simp only [load_weather_data, List.mem_map, List.mem_range] at hr
    obtain ⟨i, -, rfl⟩ := hr
    exact le_truncQ (by omega) (right_le_maxQ _ _)
  · intro r hr
    simp only [load_sample_data, List.mem_map, List.mem_range] at hr
    obtain ⟨i, -, rfl⟩ := hr
    exact left_le_maxQ _ _

/-- C6 witness: the floor theorem applied to the first row of each floored
generator under the all-zero noise stream. -/
theorem generator_trip_floors_witness :
    (15000 : ℤ) ≤ (⟨1, 40000, 32⟩ : WeatherRow).daily_trips
    ∧ (20000 : ℚ) ≤ (⟨0, 45000, 35, "Winter"⟩ : NB2Row).daily_trips :=
  ⟨(generator_trip_floors (fun _ => 0) 0).1 _ (by decide),
   (generator_trip_floors (fun _ => 0) 0).2 _ (by decide)⟩

/-! ## C8 -/

/-- C8 counterexample: the part-2 pages generator does not draw its
temperatures from the 12-entry monthly table plus noise: its output is the
same for any file system and any random stream (no noise is drawn at all),
and its temperature for 2021-03-01 (day index 59) is the Spring constant 55
while the fixed monthly table gives March the base 42. -/
theorem part2_temperature_not_monthly :
    ((load_dashboard_data_part2 (fun _ => .absent) (fun _ => 0)).2.getD 59
        ⟨0, 0, 0, ""⟩).temperature = 55
    ∧ monthlyTemps (monthOfIdx731 59) = 42
    ∧ (55 : ℤ) ≠ 42
    ∧ load_dashboard_data_part2 (fun _ => .absent) (fun _ => 0)
        = load_dashboard_data_part2 (fun _ => .file ⟨.error (), .error ()⟩)
            (fun _ => 1) :=
  ⟨by decide, by decide, by decide, rfl⟩

/-- C8 amended: in the generators that use the monthly table — namely
`load_weather_data` and `create_sample_data` — every generated temperature
is exactly the fixed 12-entry month-of-year lookup value for the row's month
plus the fresh noise draw consumed at that row (drawn from normal(0,5) in
the source); the table is the fixed 12-entry NYC climate list. The part-2
variants instead use per-season constants (see the counterexample). -/
theorem temperature_monthly_decomposition (seasonal noise : Nat → ℚ)
    (pos i : Nat) :
    (i < 365 →
      ((load_weather_data noise pos).1.getD i ⟨0, 0, 0⟩).temperature
        = (monthlyTemps (monthOfDoy (i + 1)) : ℚ) + noise (pos + i))
    ∧ (i < 701 →
      ((create_sample_data seasonal noise pos).2.1.getD i ⟨0, 0, 0, 0⟩).temperature
        = (monthlyTemps (monthOfDoy (sampleDates.getD i (0, 0)).2) : ℚ)
            + noise (pos + 701 + i))
    ∧ (List.range 12).map (fun k => monthlyTemps (k + 1))
        = [32, 35, 42, 53, 63, 72, 77, 76, 68, 57, 48, 38] := by
  refine ⟨?_, ?_, by decide⟩
  · intro h
    dsimp only [load_weather_data]
    rw [getD_range_map _ _ _ _ h]
  · intro h
    dsimp only [create_sample_data]
    rw [getD_range_map _ _ _ _ (by rw [sampleDates_length]; omega : i < sampleDates.length)]
    rw [sampleDates_length]

/-- C8 witness: the decomposition applied to the first row of
`load_weather_data` (January, table base 32) under the zero noise stream. -/
theorem temperature_monthly_decomposition_witness :
    ((load_weather_data (fun _ => 0) 0).1.getD 0 ⟨0, 0, 0⟩).temperature
      = (monthlyTemps (monthOfDoy (0 + 1)) : ℚ) + (fun _ => (0 : ℚ)) (0 + 0) :=
  (temperature_monthly_decomposition (fun _ => 0) (fun _ => 0) 0 0).1 (by omega)

/-! ## Loader lemmas -/

theorem loadFirst_all_absent {α : Type} (fs : FS) (paths : List String)
    (parse : FileData → Except Unit α) (h : ∀ p ∈ paths, fs p = .absent) :
    loadFirst fs paths parse = .ok none := by
  induction paths with
  | nil => rfl
  | cons p rest ih =>
    simp only [loadFirst]
    rw [h p (List.mem_cons_self p rest)]
    exact ih (fun q hq => h q (List.mem_cons_of_mem p hq))

theorem loadFirst_first_present {α : Type} (fs : FS) (pre post : List String)
    (p : String) (d : FileData) (parse : FileData → Except Unit α)
    (hpre : ∀ q ∈ pre, fs q = .absent) (hp : fs p = .file d) :
    loadFirst fs (pre ++ p :: post) parse = (parse d).map some := by
  induction pre with
  | nil =>
    simp only [List.nil_append, loadFirst]
    rw [hp]
  | cons a pre ih =>
    simp only [List.cons_append, loadFirst]
    rw [hpre a (List.mem_cons_self a pre)]
    exact ih (fun q hq => hpre q (List.mem_cons_of_mem a hq))

/-! ## C4 -/

/-- C4: the per-table probing loop visits candidates in list order and loads
exactly the first existing one: whenever every path before `p` is absent and
`p` holds a file, the loop's result is the parse of that file, independent
of everything after `p` (no further probing or loading); and when no
candidate exists the loop reports `none`. -/
theorem loader_probe_order {α : Type} (fs : FS)
    (parse : FileData → Except Unit α) :
    (∀ (pre post : List String) (p : String) (d : FileData),
      (∀ q ∈ pre, fs q = .absent) → fs p = .file d →
      loadFirst fs (pre ++ p :: post) parse = (parse d).map some)
    ∧ ∀ paths : List String, (∀ q ∈ paths, fs q = .absent) →
      loadFirst fs paths parse = .ok none :=
  ⟨fun pre post p d hpre hp => loadFirst_first_present fs pre post p d parse hpre hp,
   fun paths h => loadFirst_all_absent fs paths parse h⟩

/-- C4 witness: a three-candidate list whose first entry is absent and whose
second holds a station table; the loop loads the second entry, with the
third entry arbitrary. -/
theorem loader_probe_order_witness :
    loadFirst
        (fun q => if q = "top_20_stations.csv" then
          .file ⟨.ok [("W 21 St & 6 Ave", 129018)], .error ()⟩ else .absent)
        (["top_20_stations_full.csv"] ++ "top_20_stations.csv" ::
          ["../data/processed/top_20_stations.csv"])
        (fun f => f.asStations)
      = (Except.ok [("W 21 St & 6 Ave", 129018)]).map some :=
  (loader_probe_order
      (fun q => if q = "top_20_stations.csv" then
        .file ⟨.ok [("W 21 St & 6 Ave", 129018)], .error ()⟩ else .absent)
      (fun f => f.asStations)).1
    ["top_20_stations_full.csv"] ["../data/processed/top_20_stations.csv"]
    "top_20_stations.csv" ⟨.ok [("W 21 St & 6 Ave", 129018)], .error ()⟩
    (by decide) (by decide)

/-! ## C2 -/

/-- C2: when no candidate path for either table exists, the loader returns
`.ok` (it raises nothing), flags the "using sample data" warning, and hands
back exactly the generator's synthetic station and daily tables. -/
theorem loader_all_absent_falls_back (sp dp : List String) (fs : FS)
    (seasonal noise : Nat → ℚ) (pos : Nat)
    (hs : ∀ p ∈ sp, fs p = .absent) (hd : ∀ p ∈ dp, fs p = .absent) :
    load_dashboard_core sp dp fs seasonal noise pos =
      .ok (true, (create_sample_data seasonal noise pos).1,
        (create_sample_data seasonal noise pos).2.1) := by
  unfold load_dashboard_core
  rw [loadFirst_all_absent fs sp _ hs, loadFirst_all_absent fs dp _ hd]
  rfl

/-- C2 witness: the pages variant on an empty file system falls back to the
sample tables with the warning flag set. -/
theorem loader_all_absent_falls_back_witness :
    load_dashboard_core (pagesStationPaths "app") (pagesDailyPaths "app")
        (fun _ => .absent) (fun _ => 0) (fun _ => 0) 0 =
      .ok (true, (create_sample_data (fun _ => 0) (fun _ => 0) 0).1,
        (create_sample_data (fun _ => 0) (fun _ => 0) 0).2.1) :=
  loader_all_absent_falls_back _ _ _ _ _ _ (fun _ _ => rfl) (fun _ _ => rfl)

/-! ## C9 -/

/-- C9: if exactly one of the two tables is found (the station probe
succeeds while the daily probe finds nothing, or vice versa), the loader
discards the table it loaded and returns the generator's synthetic output
for both tables — real and synthetic data are never mixed. -/
theorem loader_partial_success_discards (sp dp : List String) (fs : FS)
    (seasonal noise : Nat → ℚ) (pos : Nat) :
    (∀ t : List (String × ℤ),
      loadFirst fs sp (fun f => f.asStations) = .ok (some t) →
      loadFirst fs dp (fun f => f.asDaily) = .ok none →
      load_dashboard_core sp dp fs seasonal noise pos =
        .ok (true, (create_sample_data seasonal noise pos).1,
          (create_sample_data seasonal noise pos).2.1))
    ∧ (∀ d : List DailyRow,
      loadFirst fs sp (fun f => f.asStations) = .ok none →
      loadFirst fs dp (fun f => f.asDaily) = .ok (some d) →
      load_dashboard_core sp dp fs seasonal noise pos =
        .ok (true, (create_sample_data seasonal noise pos).1,
          (create_sample_data seasonal noise pos).2.1)) := by
  constructor
  · intro t hts hdd
    unfold load_dashboard_core
    rw [hts, hdd]
    rfl
  · intro d hts hdd
    unfold load_dashboard_core
    rw [hts, hdd]
    rfl

/-- A file system holding exactly one well-formed station file and nothing
else. -/
def fsStationOnly : FS := fun q =>
  if q = "top_20_stations_full.csv" then
    .file ⟨.ok [("W 21 St & 6 Ave", 129018)], .error ()⟩
  else .absent

/-- C9 witness: with only a station file present, the notebooks loader
returns the full synthetic pair and drops the loaded station table. -/
theorem loader_partial_success_discards_witness :
    load_dashboard_core nbStationPaths nbDailyPaths fsStationOnly
        (fun _ => 0) (fun _ => 0) 0 =
      .ok (true, (create_sample_data (fun _ => 0) (fun _ => 0) 0).1,
        (create_sample_data (fun _ => 0) (fun _ => 0) 0).2.1) :=
  (loader_partial_success_discards nbStationPaths nbDailyPaths fsStationOnly
      (fun _ => 0) (fun _ => 0) 0).1 [("W 21 St & 6 Ave", 129018)]
    (by decide) (by decide)

/-! ## C3 -/

/-- A file system whose first station candidate (relative to the notebooks
candidate list) exists but is malformed, while the second candidate exists
and parses fine. -/
def fsMalformedFirst : FS := fun q =>
  if q = "top_20_stations_full.csv" then .file ⟨.error (), .error ()⟩
  else if q = "top_20_stations.csv" then
    .file ⟨.ok [("W 21 St & 6 Ave", 129018)], .error ()⟩
  else .absent

/-- C3 counterexample: with the first station candidate malformed and the
second one well-formed, the notebooks loader raises (`.error`) instead of
moving on to the next candidate or falling back to the generator. -/
theorem loader_malformed_raises_cex :
    load_dashboard_data_nb fsMalformedFirst (fun _ => 0) (fun _ => 0) 0
        = .error ()
    ∧ fsMalformedFirst "top_20_stations.csv"
        = .file ⟨.ok [("W 21 St & 6 Ave", 129018)], .error ()⟩ :=
  ⟨by decide, by decide⟩

/-- C3 amended: a malformed candidate is a hard failure for the whole
loader, not just for that file: when the first existing candidate of either
loop is malformed, `load_dashboard_data` propagates the parse error
(`pd.read_csv` / `pd.to_datetime` raising is uncaught), probing no further
candidate and never reaching the generator fallback; the generator fallback
is reserved for the no-candidate-exists case. -/
theorem loader_malformed_candidate_raises (fs : FS)
    (seasonal noise : Nat → ℚ) (pos : Nat) :
    (∀ (sp1 sp2 dp : List String) (p : String) (d : FileData),
      (∀ q ∈ sp1, fs q = .absent) → fs p = .file d →
      d.asStations = .error () →
      load_dashboard_core (sp1 ++ p :: sp2) dp fs seasonal noise pos
        = .error ())
    ∧ (∀ (sp dp1 dp2 : List String) (q : String) (d : FileData)
        (ts : Option (List (String × ℤ))),
      loadFirst fs sp (fun f => f.asStations) = .ok ts →
      (∀ r ∈ dp1, fs r = .absent) → fs q = .file d →
      d.asDaily = .error () →
      load_dashboard_core sp (dp1 ++ q :: dp2) fs seasonal noise pos
        = .error ()) := by
  constructor
  · intro sp1 sp2 dp p d hpre hp herr
    unfold load_dashboard_core
    rw [loadFirst_first_present fs sp1 sp2 p d _ hpre hp, herr]
    rfl
  · intro sp dp1 dp2 q d ts hts hpre hq herr
    unfold load_dashboard_core
    rw [hts, loadFirst_first_present fs dp1 dp2 q d _ hpre hq, herr]
    rfl

/-- C3 amended witness: the amended propagation theorem applied to the
concrete malformed-first file system. -/
theorem loader_malformed_candidate_raises_witness :
    load_dashboard_core ([] ++ "top_20_stations_full.csv" ::
        ["top_20_stations.csv", "../data/processed/top_20_stations.csv"])
      nbDailyPaths fsMalformedFirst (fun _ => 0) (fun _ => 0) 0 = .error () :=
  (loader_malformed_candidate_raises fsMalformedFirst
      (fun _ => 0) (fun _ => 0) 0).1 [] _ _ _ ⟨.error (), .error ()⟩
    (fun _ h => absurd h (List.not_mem_nil _)) (by decide) rfl

/-! ## The aggregator (spec-modelled)

The repository ships only pre-aggregated CSVs and their notebook producer is
not under src/, so §4.2's aggregator is modelled from the spec. -/

/-- Modelled from the spec: a TripRecord (§3) — the aggregation code that
consumes raw trips is missing from src/ (only the notebook-produced CSVs
appear there). Only the origin station name and the start time matter. -/
structure Trip where
  start_station_name : String
  started_at : Nat
deriving DecidableEq

/-- Modelled from the spec: add one trip for station `s` to a running
per-station count table, keeping first-appearance order of stations. -/
def bump (s : String) : List (String × Nat) → List (String × Nat)
  | [] => [(s, 1)]
  | q :: rest => if q.1 = s then (q.1, q.2 + 1) :: rest else q :: bump s rest

/-- Modelled from the spec: group trips by `start_station_name` and count
per group, stations listed in order of first appearance. -/
def stationCounts (trips : List Trip) : List (String × Nat) :=
  trips.foldl (fun acc t => bump t.start_station_name acc) []

/-- Comparison used to rank stations: `a` ranks at least as high as `b` when
its count is at least `b`'s. -/
def countGE (a b : String × Nat) : Prop := b.2 ≤ a.2

instance : DecidableRel countGE := fun a b => Nat.decLe b.2 a.2

instance : IsTotal (String × Nat) countGE := ⟨fun a b => Nat.le_total b.2 a.2⟩

instance : IsTrans (String × Nat) countGE := ⟨fun _ _ _ h1 h2 => le_trans h2 h1⟩

/-- Modelled from the spec: `computeTopStations(trips, n)` (§4.2) — group by
station, count, order by count descending with a stable sort (equal counts
keep first-appearance order), take the first `n`. -/
def computeTopStations (trips : List Trip) (n : Nat) : List (String × Nat) :=
  (List.insertionSort countGE (stationCounts trips)).take n

/-- First count recorded for station `s` in a count table (0 if absent). -/
def valAt (s : String) : List (String × Nat) → Nat
  | [] => 0
  | q :: rest => if q.1 = s then q.2 else valAt s rest

theorem bump_valAt (s x : String) (acc : List (String × Nat)) :
    valAt s (bump x acc) = valAt s acc + if s = x then 1 else 0 := by
  induction acc with
  | nil =>
    simp only [bump, valAt]
    by_cases h : s = x
    · rw [if_pos h.symm, if_pos h]
    · rw [if_neg (fun e => h e.symm), if_neg h]
  | cons q rest ih =>
    by_cases hq : q.1 = x
    · simp only [bump, if_pos hq, valAt]
      by_cases hs : q.1 = s
      · rw [if_pos hs, if_pos hs, if_pos (by rw [← hs, hq])]
      · rw [if_neg hs, if_neg hs, if_neg (fun e => hs (by rw [hq, ← e])), Nat.add_zero]
    · simp only [bump, if_neg hq, valAt]
      by_cases hs : q.1 = s
      · rw [if_pos hs, if_pos hs, if_neg (fun e => hq (by rw [hs, e])), Nat.add_zero]
      · rw [if_neg hs, if_neg hs, ih]

theorem bump_keys (s : String) (acc : List (String × Nat)) :
    (bump s acc).map Prod.fst =
      if s ∈ acc.map Prod.fst then acc.map Prod.fst
      else acc.map Prod.fst ++ [s] := by
  induction acc with
  | nil => simp [bump]
  | cons q rest ih =>
    by_cases hq : q.1 = s
    · simp [bump, hq]
    · simp only [bump, if_neg hq, List.map_cons, ih, List.mem_cons]
      by_cases hs : s ∈ rest.map Prod.fst
      · rw [if_pos hs, if_pos (Or.inr hs)]
      · rw [if_neg hs, if_neg ?_, List.cons_append]
        rintro (e | h)
        · exact hq e.symm
        · exact hs h

theorem foldl_bump_valAt (trips : List Trip) (acc : List (String × Nat))
    (s : String) :
    valAt s (trips.foldl (fun a t => bump t.start_station_name a) acc) =
      valAt s acc + trips.countP (fun t => t.start_station_name == s) := by
  induction trips generalizing acc with
  | nil => simp
  | cons t rest ih =>
    rw [List.foldl_cons, ih, bump_valAt, List.countP_cons]
    by_cases h : t.start_station_name = s
    · rw [if_pos h.symm, if_pos (by simp [h])]
      omega
    · rw [if_neg (fun e => h e.symm), if_neg (by simp [h])]
      omega

theorem foldl_bump_keys_nodup (trips : List Trip)
    (acc : List (String × Nat)) (h : (acc.map Prod.fst).Nodup) :
    (((trips.foldl (fun a t => bump t.start_station_name a) acc)).map
      Prod.fst).Nodup := by
  induction trips generalizing acc with
  | nil => exact h
  | cons t rest ih =>
    rw [List.foldl_cons]
    apply ih
    rw [bump_keys]
    by_cases hm : t.start_station_name ∈ acc.map Prod.fst
    · rwa [if_pos hm]
    · rw [if_neg hm]
      rw [List.nodup_append]
      exact ⟨h, List.nodup_singleton _, by simp [List.disjoint_left, hm]⟩

theorem foldl_bump_keys_mem (trips : List Trip) (acc : List (String × Nat))
    (s : String) :
    s ∈ ((trips.foldl (fun a t => bump t.start_station_name a) acc)).map
        Prod.fst ↔
      s ∈ acc.map Prod.fst ∨ s ∈ trips.map Trip.start_station_name := by
  induction trips generalizing acc with
  | nil => simp
  | cons t rest ih =>
    rw [List.foldl_cons, ih, bump_keys, List.map_cons, List.mem_cons]
    by_cases hm : t.start_station_name ∈ acc.map Prod.fst
    · rw [if_pos hm]
      constructor
      · rintro (h | h)
        · exact Or.inl h
        · exact Or.inr (Or.inr h)
      · rintro (h | e | h)
        · exact Or.inl h
        · exact Or.inl (e ▸ hm)
        · exact Or.inr h
    · rw [if_neg hm]
      simp only [List.mem_append, List.mem_singleton]
      constructor
      · rintro ((h | e) | h)
        · exact Or.inl h
        · exact Or.inr (Or.inl e)
        · exact Or.inr (Or.inr h)
      · rintro (h | e | h)
        · exact Or.inl (Or.inl h)
        · exact Or.inl (Or.inr e)
        · exact Or.inr h

theorem valAt_of_mem {cs : List (String × Nat)} {p : String × Nat}
    (nd : (cs.map Prod.fst).Nodup) (hp : p ∈ cs) : valAt p.1 cs = p.2 := by
  induction cs with
  | nil => cases hp
  | cons q rest ih =>
    rw [List.map_cons, List.nodup_cons] at nd
    rcases List.mem_cons.mp hp with rfl | hp'
    · rw [valAt, if_pos rfl]
    · have hq : q.1 ≠ p.1 := fun e =>
        nd.1 (e ▸ List.mem_map_of_mem Prod.fst hp')
      rw [valAt, if_neg hq]
      exact ih nd.2 hp'

theorem stationCounts_keys_nodup (trips : List Trip) :
    ((stationCounts trips).map Prod.fst).Nodup :=
  foldl_bump_keys_nodup trips [] (by simp)

theorem stationCounts_nodup (trips : List Trip) :
    (stationCounts trips).Nodup :=
  (stationCounts_keys_nodup trips).of_map

theorem stationCounts_count (trips : List Trip) {p : String × Nat}
    (hp : p ∈ stationCounts trips) :
    p.2 = trips.countP (fun t => t.start_station_name == p.1) := by
  have h1 := valAt_of_mem (stationCounts_keys_nodup trips) hp
  have h2 := foldl_bump_valAt trips [] p.1
  rw [stationCounts] at h1
  rw [h1] at h2
  simpa [valAt] using h2

theorem stationCounts_length (trips : List Trip) :
    (stationCounts trips).length =
      (trips.map Trip.start_station_name).dedup.length := by
  have nd := stationCounts_keys_nodup trips
  have h1 : (stationCounts trips).length =
      ((stationCounts trips).map Prod.fst).length := (List.length_map _ _).symm
  rw [h1, ← List.toFinset_card_of_nodup nd, ← List.card_toFinset]
  congr 1
  ext s
  simp only [List.mem_toFinset]
  simpa using foldl_bump_keys_mem trips [] s

theorem pair_sublist_take {α : Type} {a b : α} :
    ∀ (l : List α) (n : Nat), l.Nodup → List.Sublist [a, b] l →
      b ∈ l.take n → List.Sublist [a, b] (l.take n) := by
  intro l
  induction l with
  | nil => intro n _ h _; cases List.sublist_nil.mp h
  | cons c l ih =>
    intro n nd hab hb
    cases n with
    | zero => simp at hb
    | succ m =>
      rw [List.take_succ_cons] at hb ⊢
      rw [List.nodup_cons] at nd
      cases hab with
      | cons _ h =>
        have hbl : b ∈ l := (h.subset) (by simp)
        have hbc : b ≠ c := fun e => nd.1 (e ▸ hbl)
        have hb' : b ∈ l.take m := by
          rcases List.mem_cons.mp hb with e | h'
          · exact absurd e hbc
          · exact h'
        exact (ih m nd.2 h hb').cons _
      | cons₂ _ h =>
        have hbl : b ∈ l := List.singleton_sublist.mp h
        have hbc : b ≠ a := fun e => nd.1 (e ▸ hbl)
        have hb' : b ∈ l.take m := by
          rcases List.mem_cons.mp hb with e | h'
          · exact absurd e hbc
          · exact h'
        exact List.Sublist.cons₂ _ (List.singleton_sublist.mpr hb')

/-! ## C5 -/

/-- C5 (spec-modelled): `computeTopStations trips n` has length
`min n distinct_station_count`; its counts are in descending order
(`countGE` pairwise); every returned pair is a genuine station group of the
input with its exact trip count; every returned pair's count is at least
that of every grouped station left out (the n highest counts); and stations
with equal counts appear in first-appearance order (any equal-count pair of
the grouped table whose later element was selected appears in the output in
the same relative order, which also forces the earlier element in). -/
theorem computeTopStations_correct (trips : List Trip) (n : Nat) :
    (computeTopStations trips n).length
        = min n ((trips.map Trip.start_station_name).dedup.length)
    ∧ List.Pairwise countGE (computeTopStations trips n)
    ∧ (∀ p ∈ computeTopStations trips n, p ∈ stationCounts trips)
    ∧ (∀ p ∈ computeTopStations trips n,
        p.2 = trips.countP (fun t => t.start_station_name == p.1))
    ∧ (∀ a ∈ computeTopStations trips n, ∀ b ∈ stationCounts trips,
        b ∉ computeTopStations trips n → b.2 ≤ a.2)
    ∧ (∀ a b : String × Nat, a.2 = b.2 →
        List.Sublist [a, b] (stationCounts trips) →
        b ∈ computeTopStations trips n →
        List.Sublist [a, b] (computeTopStations trips n)) := by
  have hperm := List.perm_insertionSort countGE (stationCounts trips)
  have hsorted := List.sorted_insertionSort countGE (stationCounts trips)
  have hmem : ∀ p ∈ computeTopStations trips n, p ∈ stationCounts trips :=
    fun p hp => hperm.subset ((List.take_sublist n _).subset hp)
  refine ⟨?_, ?_, hmem, ?_, ?_, ?_⟩
  · rw [computeTopStations, List.length_take, List.length_insertionSort,
      stationCounts_length]
  · exact hsorted.sublist (List.take_sublist n _)
  · exact fun p hp => stationCounts_count trips (hmem p hp)
  · intro a ha b hb hbout
    have hbs : b ∈ List.insertionSort countGE (stationCounts trips) :=
      hperm.mem_iff.mpr hb
    have hsplit := List.take_append_drop n
      (List.insertionSort countGE (stationCounts trips))
    have hbdrop : b ∈ (List.insertionSort countGE (stationCounts trips)).drop n := by
      rcases List.mem_append.mp (by rw [hsplit]; exact hbs) with h | h
      · exact absurd h hbout
      · exact h
    have hp : List.Pairwise countGE
        ((List.insertionSort countGE (stationCounts trips)).take n ++
          (List.insertionSort countGE (stationCounts trips)).drop n) := by
      rw [hsplit]; exact hsorted
    exact (List.pairwise_append.mp hp).2.2 a ha b hbdrop
  · intro a b hab hcs hbout
    have hpair : List.Sublist [a, b]
        (List.insertionSort countGE (stationCounts trips)) :=
      List.pair_sublist_insertionSort (hab.ge : countGE a b) hcs
    have hnd : (List.insertionSort countGE (stationCounts trips)).Nodup :=
      hperm.nodup_iff.mpr (stationCounts_nodup trips)
    exact pair_sublist_take _ n hnd hpair hbout

/-- C5 witness: on three equal-count stations with `n = 2`, the stability
clause applies to the pair (A, B): both are kept, in first-seen order. -/
theorem computeTopStations_correct_witness :
    List.Sublist [(("A" : String), 1), ("B", 1)]
      (computeTopStations [⟨"A", 0⟩, ⟨"B", 1⟩, ⟨"C", 2⟩] 2) :=
  (computeTopStations_correct [⟨"A", 0⟩, ⟨"B", 1⟩, ⟨"C", 2⟩] 2).2.2.2.2.2
    ("A", 1) ("B", 1) rfl (by decide) (by decide)
